import Mathlib

/-!
Verification development for the connection service
(package `connection`: spec.go, json.go, service.go).

The Go code manages weighted, directed edges between peers, scoped by a
namespace pair, on top of a key/record store with set operations.  We give a
shallow embedding: Go strings become `String`, `time.Time` becomes `Nat`
(nanoseconds since the epoch; `IsZero` becomes `= 0`), `float64` becomes `Rat`
(the code never does float arithmetic: weights are only stored, returned and
compared against the literal zero), and every fallible Go function becomes a
function into `Except Err _`.  The external storage collaborator is modelled
from its contract (spec section 6): an in-memory record map plus an adjacency
set map, both as association lists.  `maskAny` and `maskAnyf` of the source
wrap errors preserving their cause, so the embedding keeps the error value
itself and carries the formatted message where the source formats one.
-/

namespace Anna

/-- Errors of the storage collaborator.  The contract (spec section 6) allows
a not-found outcome on `get` and arbitrary other failures; the in-memory model
below only ever produces `notFound`, but the service-level translation logic
is stated over the whole type. -/
inductive StorageErr where
  | notFound : StorageErr
  | other : String → StorageErr
deriving DecidableEq, Repr

/-- Service-level errors, mirroring error.go of the package: invalid
configuration errors and not-found errors each carry the formatted message
(`maskAnyf` attaches it), and any other error from a collaborator is
propagated unchanged in meaning (`maskAny`). -/
inductive Err where
  | invalidConfig : String → Err
  | notFound : String → Err
  | storage : StorageErr → Err
  | json : String → Err
deriving DecidableEq, Repr

/-- IsNotFound of the source asserts that the cause of an error is
notFoundError. -/
def Err.isNotFound : Err → Bool
  | Err.notFound _ => true
  | _ => false

/-- Association-list update: replaces the binding of `k` or appends it. -/
def updateAssoc {α : Type} (l : List (String × α)) (k : String) (v : α) :
    List (String × α) :=
  match l with
  | [] => [(k, v)]
  | (k0, v0) :: t =>
      if k0 = k then (k, v) :: t else (k0, v0) :: updateAssoc t k v

/-- State of the storage collaborator
(github.com/the-anna-project/storage, external): a record map keyed by
connection id and an adjacency set map keyed by list id.  Modelled from the
contract in spec section 6. -/
structure Storage where
  records : List (String × String)
  sets : List (String × List String)
deriving DecidableEq, Repr

/-- Contract of `get(key)`: the stored value, or a not-found error when the
key is absent. -/
def storageGet (st : Storage) (key : String) : Except StorageErr String :=
  match st.records.lookup key with
  | some v => Except.ok v
  | none => Except.error StorageErr.notFound

/-- Contract of `set(key, value)`: stores the value under the key. -/
def storageSet (st : Storage) (key value : String) : Storage :=
  { st with records := updateAssoc st.records key value }

/-- Contract of `remove(key)`: removes the record; removing an absent key is
not an error. -/
def storageRemove (st : Storage) (key : String) : Storage :=
  { st with records := st.records.filter (fun p => p.1 ≠ key) }

/-- Contract of `membersOf(setKey)` (`GetAllFromSet`): the members of the set,
the empty collection when the set is empty or was never created. -/
def getAllFromSet (st : Storage) (key : String) : List String :=
  (st.sets.lookup key).getD []

/-- Contract of `addToSet(setKey, member)` (`PushToSet`): set semantics, a
member already present is not duplicated. -/
def pushToSet (st : Storage) (key member : String) : Storage :=
  let ms := getAllFromSet st key
  let ms2 := if member ∈ ms then ms else ms ++ [member]
  { st with sets := updateAssoc st.sets key ms2 }

/-- Contract of `removeFromSet(setKey, member)` (`RemoveFromSet`): removes the
member; an empty set is indistinguishable from an absent one to `membersOf`. -/
def removeFromSet (st : Storage) (key member : String) : Storage :=
  let ms2 := (getAllFromSet st key).filter (fun m => m ≠ member)
  { st with sets := updateAssoc st.sets key ms2 }

/-- Connection entity (json.go lines 95 to 102): five fields, `created` a
timestamp, `weight` a float64.  All five fields are unexported in Go, which
matters for the wire encoding below. -/
structure connection where
  created : Nat
  id : String
  peerAID : String
  peerBID : String
  weight : Rat
deriving DecidableEq, Repr

/-- Config for building a connection (json.go lines 45 to 52). -/
structure Config where
  created : Nat
  id : String
  peerAID : String
  peerBID : String
  weight : Rat
deriving DecidableEq, Repr

/-- DefaultConfig (json.go lines 56 to 65): `Created` is the current time,
every other field is the zero value.  The call-site time is passed in as
`now`. -/
def DefaultConfig (now : Nat) : Config :=
  { created := now, id := "", peerAID := "", peerBID := "", weight := 0 }

/-- New (json.go lines 68 to 93): validates `Created`, `ID`, `PeerAID`,
`PeerBID` in that order (weight is never checked) and builds the entity. -/
def New (config : Config) : Except Err connection :=
  if config.created = 0 then
    Except.error (Err.invalidConfig "created must not be empty")
  else if config.id = "" then
    Except.error (Err.invalidConfig "ID must not be empty")
  else if config.peerAID = "" then
    Except.error (Err.invalidConfig "peerA ID must not be empty")
  else if config.peerBID = "" then
    Except.error (Err.invalidConfig "peerB ID must not be empty")
  else
    Except.ok { created := config.created, id := config.id,
                peerAID := config.peerAID, peerBID := config.peerBID,
                weight := config.weight }

/-- MarshalJSON (json.go lines 7 to 20): marshals an anonymous struct that
embeds `(*ConnectionClone)(c)`, where `ConnectionClone` is a method-free copy
of the `connection` type.  Go encoding/json emits only exported struct
fields; every field of `connection` (hence of `ConnectionClone`) is
unexported, so the promoted field set of the anonymous struct is empty and
the produced document is the empty JSON object. -/
def connection.marshalJSON (_ : connection) : String := "\x7b\x7d"

/-- UnmarshalJSON (json.go lines 22 to 36): unmarshals into an anonymous
struct embedding `(*ConnectionClone)(c)`.  encoding/json can only set
exported promoted fields (there are none) and ignores unknown keys, so on a
well-formed document the receiver is returned unchanged; malformed input is a
decoding error.  Every document reaching this function in the model is one
produced by `connection.marshalJSON`, that is the empty object. -/
def connection.unmarshalJSON (b : String) (c : connection) :
    Except Err connection :=
  if b = "\x7b\x7d" then Except.ok c else Except.error (Err.json b)

/-- Service state (service.go lines 93 to 105): the storage collection and
the configured default weight.  The lifecycle internals (bootOnce, closer,
shutdownOnce) only affect Boot, Shutdown and cancellation and are not touched
by any modelled operation, so they are omitted. -/
structure service where
  storage : Storage
  weight : Rat
deriving DecidableEq, Repr

/-- NewService (service.go lines 62 to 91): rejects a zero weight with an
invalid-configuration error; the dependency nil-checks have no counterpart in
the embedding, where the storage collection is a value. -/
def NewService (st : Storage) (weight : Rat) : Except Err service :=
  if weight = 0 then
    Except.error (Err.invalidConfig "weight must not be empty")
  else
    Except.ok { storage := st, weight := weight }

/-- Weight (service.go lines 280 to 282). -/
def service.Weight (s : service) : Rat := s.weight

/-- Record key of a 4-tuple, `fmt.Sprintf("%s:%s:%s:%s", ...)` as used by
Search, Create and Delete. -/
def recordKeyOf (namespaceA namespaceB peerAID peerBID : String) : String :=
  namespaceA ++ ":" ++ namespaceB ++ ":" ++ peerAID ++ ":" ++ peerBID

/-- Adjacency key of a triple, `fmt.Sprintf("%s:%s:%s", ...)` as used by
Create, Delete and SearchPeers. -/
def adjacencyKeyOf (namespaceA namespaceB peerAID : String) : String :=
  namespaceA ++ ":" ++ namespaceB ++ ":" ++ peerAID

/-- Body of Search after the key is formatted (service.go lines 240 to 256),
as a function of the storage get outcome: a not-found get becomes the
service-level not-found error carrying the key, any other get error is
propagated, and a hit is decoded into a fresh connection built by
`New (DefaultConfig now)` before `json.Unmarshal` runs on it. -/
def searchWithGet (g : Except StorageErr String) (connectionID : String)
    (now : Nat) : Except Err connection :=
  match g with
  | Except.error StorageErr.notFound => Except.error (Err.notFound connectionID)
  | Except.error e => Except.error (Err.storage e)
  | Except.ok result =>
      match New (DefaultConfig now) with
      | Except.error e => Except.error e
      | Except.ok newConnection => connection.unmarshalJSON result newConnection

/-- Search (service.go lines 237 to 257).  `now` stands for the value of
time.Now() inside the DefaultConfig call of this invocation. -/
def service.Search (s : service) (now : Nat)
    (namespaceA namespaceB peerAID peerBID : String) : Except Err connection :=
  let connectionID := recordKeyOf namespaceA namespaceB peerAID peerBID
  searchWithGet (storageGet s.storage connectionID) connectionID now

/-- Exists (service.go lines 226 to 235): delegates to Search, turns a
not-found error into false, propagates any other error, and reports true on
a successful search. -/
def service.Exists (s : service) (now : Nat)
    (namespaceA namespaceB peerAID peerBID : String) : Except Err Bool :=
  match service.Search s now namespaceA namespaceB peerAID peerBID with
  | Except.error e =>
      if e.isNotFound then Except.ok false else Except.error e
  | Except.ok _ => Except.ok true

/-- Create (service.go lines 113 to 177).  The worker service runs the two
actions concurrently with one worker per action and returns the first error;
the model runs them in list order.  The actions touch disjoint components of
the storage state (the adjacency set map and the record map) and neither
reads what the other writes, so the sequential composition yields the same
final state and error set as any interleaving.  The in-memory storage model
never fails, hence the push-to-set action always succeeds and the only
possible action failure is the entity validation inside the record-write
action.  The pair returned is (result, service state after the call). -/
def service.Create (s : service) (now : Nat)
    (namespaceA namespaceB peerAID peerBID : String) :
    Except Err connection × service :=
  match service.Search s now namespaceA namespaceB peerAID peerBID with
  | Except.ok c => (Except.ok c, s)
  | Except.error e =>
      if e.isNotFound then
        -- Action one: push peerBID onto the adjacency set.
        let listID := adjacencyKeyOf namespaceA namespaceB peerAID
        let st1 := pushToSet s.storage listID peerBID
        -- Action two: build the candidate connection and write its record.
        let connectionID := recordKeyOf namespaceA namespaceB peerAID peerBID
        let cfg0 := DefaultConfig now
        let cfg := { cfg0 with id := connectionID, peerAID := peerAID,
                               peerBID := peerBID, weight := service.Weight s }
        match New cfg with
        | Except.error e2 => (Except.error e2, { s with storage := st1 })
        | Except.ok newConnection =>
            let b := connection.marshalJSON newConnection
            let st2 := storageSet st1 connectionID b
            (Except.ok newConnection, { s with storage := st2 })
      else (Except.error e, s)

/-- Delete (service.go lines 179 to 224): checks Exists first and is a no-op
on false; otherwise removes the adjacency member and the record through the
worker (sequentialised as in Create, the two removals touching disjoint
components). -/
def service.Delete (s : service) (now : Nat)
    (namespaceA namespaceB peerAID peerBID : String) :
    Except Err Unit × service :=
  match service.Exists s now namespaceA namespaceB peerAID peerBID with
  | Except.error e => (Except.error e, s)
  | Except.ok false => (Except.ok (), s)
  | Except.ok true =>
      let listID := adjacencyKeyOf namespaceA namespaceB peerAID
      let st1 := removeFromSet s.storage listID peerBID
      let connectionID := recordKeyOf namespaceA namespaceB peerAID peerBID
      let st2 := storageRemove st1 connectionID
      (Except.ok (), { s with storage := st2 })

/-- SearchPeers (service.go lines 259 to 272): reads the members of the
adjacency set and treats an empty collection as not found, naming the list
key. -/
def service.SearchPeers (s : service)
    (namespaceA namespaceB peerAID : String) : Except Err (List String) :=
  let listID := adjacencyKeyOf namespaceA namespaceB peerAID
  let result := getAllFromSet s.storage listID
  if result.length = 0 then Except.error (Err.notFound listID)
  else Except.ok result

/-!
Theorems.  The first three claims fail on the code: every field of the Go
`connection` struct is unexported, so the clone-based MarshalJSON emits an
empty JSON object, and Search builds its decode target with
`New(DefaultConfig())`, whose `ID` is the empty string, so that call always
returns the invalid-configuration error and Search can never succeed on a
stored record.  This contradicts the comment inside Create (a found
connection is returned, "that way we are idempotent") and defeats the whole
purpose of the clone-marshal pattern, so the divergences are slips in the
code rather than in the specification.
-/

/-- Helper: the record key always contains a separator, hence is never the
empty string. -/
theorem recordKeyOf_ne_empty (a b c d : String) : recordKeyOf a b c d ≠ "" := by
  intro h
  have hl := congrArg String.length h
  simp [recordKeyOf, String.length_append] at hl
  exact absurd hl.1.2 (by decide)

/-- C1: the claim states that Search on a present record key decodes the
stored record and returns it without error.  The code instead fails on every
present key: the decode target is built by `New (DefaultConfig now)`, whose
id is empty, so Search returns the invalid-configuration error "ID must not
be empty".  The state below is reached by a successful Create, so the key is
genuinely present. -/
theorem C1_search_errors_on_present_key :
    storageGet (service.Create ⟨⟨[], []⟩, 1⟩ 5 "a" "b" "c" "d").2.storage
        "a:b:c:d" = Except.ok "\x7b\x7d" ∧
    service.Search (service.Create ⟨⟨[], []⟩, 1⟩ 5 "a" "b" "c" "d").2
        5 "a" "b" "c" "d"
      = Except.error (Err.invalidConfig "ID must not be empty") :=
  ⟨rfl, rfl⟩

/-- C2: the claim states that a second Create with the same 4-tuple returns
the stored Connection unchanged and without error.  The code instead fails:
the idempotency check calls Search, which errors on every present key (see
C1), with an error that is not a not-found error, so the second Create
propagates it. -/
theorem C2_second_create_errors :
    (service.Create ⟨⟨[], []⟩, 1⟩ 5 "a" "b" "c" "d").1
      = Except.ok { created := 5, id := "a:b:c:d", peerAID := "c",
                    peerBID := "d", weight := 1 } ∧
    (service.Create (service.Create ⟨⟨[], []⟩, 1⟩ 5 "a" "b" "c" "d").2
        5 "a" "b" "c" "d").1
      = Except.error (Err.invalidConfig "ID must not be empty") :=
  ⟨rfl, rfl⟩

/-- C3: the claim states that encoding a Connection and decoding the result
reproduces every field.  The code encodes every connection as the empty JSON
object (no exported fields), and decoding sets nothing, returning the decode
target unchanged: a connection distinct from the encoded one comes back
unchanged instead of acquiring the encoded fields. -/
theorem C3_roundtrip_loses_every_field :
    connection.unmarshalJSON
        (connection.marshalJSON
          { created := 5, id := "x", peerAID := "p", peerBID := "q",
            weight := 1 })
        { created := 7, id := "y", peerAID := "u", peerBID := "v",
          weight := 2 }
      = Except.ok { created := 7, id := "y", peerAID := "u", peerBID := "v",
                    weight := 2 } ∧
    ({ created := 7, id := "y", peerAID := "u", peerBID := "v",
       weight := 2 } : connection)
      ≠ { created := 5, id := "x", peerAID := "p", peerBID := "q",
          weight := 1 } :=
  ⟨rfl, by decide⟩

/-- Translation of a Search outcome into an Exists outcome, written from the
words of claim C4: a not-found failure becomes false without error, any
other failure is propagated, and a found record yields true. -/
def existsSpec (searchOutcome : Except Err connection) : Except Err Bool :=
  match searchOutcome with
  | Except.error (Err.notFound _) => Except.ok false
  | Except.error e => Except.error e
  | Except.ok _ => Except.ok true

/-- C4: Exists returns false without error exactly on a not-found Search
failure, true without error on a successful Search, and propagates any other
Search error; that is, Exists is the claimed translation of the Search
outcome, on every service state and 4-tuple. -/
theorem C4_exists_translates_search (s : service) (now : Nat)
    (namespaceA namespaceB peerAID peerBID : String) :
    service.Exists s now namespaceA namespaceB peerAID peerBID
      = existsSpec (service.Search s now namespaceA namespaceB peerAID peerBID) := by
  cases hs : service.Search s now namespaceA namespaceB peerAID peerBID with
  | ok c => simp [service.Exists, existsSpec, hs]
  | error e =>
      cases e <;> simp [service.Exists, existsSpec, hs, Err.isNotFound]

/-- C5: when Exists reports false, Delete returns success and leaves the
service state (in particular the whole storage state) unchanged: no record
removal and no adjacency-set removal are issued. -/
theorem C5_delete_noop_when_absent (s : service) (now : Nat)
    (namespaceA namespaceB peerAID peerBID : String)
    (h : service.Exists s now namespaceA namespaceB peerAID peerBID
          = Except.ok false) :
    service.Delete s now namespaceA namespaceB peerAID peerBID
      = (Except.ok (), s) := by
  simp [service.Delete, h]

/-- Witness for C5 at a concrete input: on the empty storage Exists reports
false and Delete is a no-op. -/
theorem C5_witness :
    service.Exists ⟨⟨[], []⟩, 1⟩ 5 "a" "b" "c" "d" = Except.ok false ∧
    service.Delete ⟨⟨[], []⟩, 1⟩ 5 "a" "b" "c" "d"
      = (Except.ok (), ⟨⟨[], []⟩, 1⟩) :=
  ⟨rfl, C5_delete_noop_when_absent ⟨⟨[], []⟩, 1⟩ 5 "a" "b" "c" "d" rfl⟩

/-- C6: on an absent record key, when the two sub-actions succeed (in the
model the storage writes always succeed, and the entity validation inside
the record-write action succeeds exactly when the time is non-zero and both
peer ids are non-empty), Create returns the candidate Connection: its id is
the composite record key, its peer ids are the given ones, and its weight is
exactly the configured service weight. -/
theorem C6_create_fields (s : service) (now : Nat)
    (namespaceA namespaceB peerAID peerBID : String)
    (habsent : storageGet s.storage
        (recordKeyOf namespaceA namespaceB peerAID peerBID)
        = Except.error StorageErr.notFound)
    (hnow : now ≠ 0) (hA : peerAID ≠ "") (hB : peerBID ≠ "") :
    (service.Create s now namespaceA namespaceB peerAID peerBID).1
      = Except.ok { created := now,
                    id := recordKeyOf namespaceA namespaceB peerAID peerBID,
                    peerAID := peerAID, peerBID := peerBID,
                    weight := service.Weight s } := by
  have hkey := recordKeyOf_ne_empty namespaceA namespaceB peerAID peerBID
  simp [service.Create, service.Search, habsent, searchWithGet,
        Err.isNotFound, New, DefaultConfig, hnow, hA, hB, hkey,
        service.Weight]

/-- Witness for C6 at a concrete input: a fresh service of weight one. -/
theorem C6_witness :
    (service.Create ⟨⟨[], []⟩, 1⟩ 5 "a" "b" "c" "d").1
      = Except.ok { created := 5, id := recordKeyOf "a" "b" "c" "d",
                    peerAID := "c", peerBID := "d",
                    weight := service.Weight ⟨⟨[], []⟩, 1⟩ } :=
  C6_create_fields ⟨⟨[], []⟩, 1⟩ 5 "a" "b" "c" "d" rfl
    (by decide) (by decide) (by decide)

/-- C7: on an absent record key Search fails with the service-level
not-found error naming the composite key, and the Search body propagates any
storage get error other than not-found unchanged. -/
theorem C7_search_absent_not_found (s : service) (now : Nat)
    (namespaceA namespaceB peerAID peerBID msg : String)
    (habsent : storageGet s.storage
        (recordKeyOf namespaceA namespaceB peerAID peerBID)
        = Except.error StorageErr.notFound) :
    service.Search s now namespaceA namespaceB peerAID peerBID
      = Except.error
          (Err.notFound (recordKeyOf namespaceA namespaceB peerAID peerBID)) ∧
    searchWithGet (Except.error (StorageErr.other msg))
        (recordKeyOf namespaceA namespaceB peerAID peerBID) now
      = Except.error (Err.storage (StorageErr.other msg)) := by
  constructor
  · simp [service.Search, habsent, searchWithGet]
  · rfl

/-- Witness for C7 at a concrete input: the empty storage misses every key. -/
theorem C7_witness :
    service.Search ⟨⟨[], []⟩, 1⟩ 5 "a" "b" "c" "d"
      = Except.error (Err.notFound (recordKeyOf "a" "b" "c" "d")) ∧
    searchWithGet (Except.error (StorageErr.other "disk failure"))
        (recordKeyOf "a" "b" "c" "d") 5
      = Except.error (Err.storage (StorageErr.other "disk failure")) :=
  C7_search_absent_not_found ⟨⟨[], []⟩, 1⟩ 5 "a" "b" "c" "d" "disk failure" rfl

/-- C8: SearchPeers fails with the not-found error naming the adjacency key
exactly when the member collection read from storage is empty, and otherwise
returns the members; an adjacency key that was never created reads as the
empty collection, so it surfaces as the same not-found error, which the
second conjunct exhibits on the empty storage. -/
theorem C8_searchpeers_empty_is_not_found (s : service)
    (namespaceA namespaceB peerAID : String) :
    service.SearchPeers s namespaceA namespaceB peerAID
      = (if getAllFromSet s.storage
            (adjacencyKeyOf namespaceA namespaceB peerAID) = []
         then Except.error
            (Err.notFound (adjacencyKeyOf namespaceA namespaceB peerAID))
         else Except.ok (getAllFromSet s.storage
            (adjacencyKeyOf namespaceA namespaceB peerAID))) ∧
    service.SearchPeers ⟨⟨[], []⟩, 1⟩ "x" "y" "z"
      = Except.error (Err.notFound "x:y:z") := by
  constructor
  · cases h : getAllFromSet s.storage
        (adjacencyKeyOf namespaceA namespaceB peerAID) with
    | nil => simp [service.SearchPeers, h]
    | cons m ms => simp [service.SearchPeers, h]
  · rfl

/-- C9: building a Connection succeeds, reproducing the configured fields,
precisely when the created timestamp is non-zero and the id and both peer
ids are non-empty; the weight is unconstrained (the configuration is
universally quantified, so the numeric zero weight is accepted).  Each
failure is the invalid-configuration error naming the first missing field in
check order. -/
theorem C9_new_validation (cfg : Config) :
    ((New cfg = Except.ok { created := cfg.created, id := cfg.id,
                            peerAID := cfg.peerAID, peerBID := cfg.peerBID,
                            weight := cfg.weight })
      ↔ (cfg.created ≠ 0 ∧ cfg.id ≠ "" ∧ cfg.peerAID ≠ "" ∧ cfg.peerBID ≠ "")) ∧
    ((New cfg = Except.error (Err.invalidConfig "created must not be empty"))
      ↔ cfg.created = 0) ∧
    ((New cfg = Except.error (Err.invalidConfig "ID must not be empty"))
      ↔ (cfg.created ≠ 0 ∧ cfg.id = "")) ∧
    ((New cfg = Except.error (Err.invalidConfig "peerA ID must not be empty"))
      ↔ (cfg.created ≠ 0 ∧ cfg.id ≠ "" ∧ cfg.peerAID = "")) ∧
    ((New cfg = Except.error (Err.invalidConfig "peerB ID must not be empty"))
      ↔ (cfg.created ≠ 0 ∧ cfg.id ≠ "" ∧ cfg.peerAID ≠ "" ∧ cfg.peerBID = "")) := by
  by_cases h1 : cfg.created = 0 <;> by_cases h2 : cfg.id = "" <;>
    by_cases h3 : cfg.peerAID = "" <;> by_cases h4 : cfg.peerBID = "" <;>
      simp [New, h1, h2, h3, h4]

/-- Helper for C10: the entity validation rejects a configuration whose
created time is zero or whose peer ids are empty, with an
invalid-configuration error. -/
theorem New_missing_field_error (cfg : Config)
    (h : cfg.created = 0 ∨ cfg.peerAID = "" ∨ cfg.peerBID = "") :
    ∃ msg, New cfg = Except.error (Err.invalidConfig msg) := by
  by_cases h1 : cfg.created = 0
  · exact ⟨"created must not be empty", by simp [New, h1]⟩
  · by_cases h2 : cfg.id = ""
    · exact ⟨"ID must not be empty", by simp [New, h1, h2]⟩
    · by_cases h3 : cfg.peerAID = ""
      · exact ⟨"peerA ID must not be empty", by simp [New, h1, h2, h3]⟩
      · by_cases h4 : cfg.peerBID = ""
        · exact ⟨"peerB ID must not be empty", by simp [New, h1, h2, h3, h4]⟩
        · rcases h with h | h | h
          · exact absurd h h1
          · exact absurd h h3
          · exact absurd h h4

/-- C10: on an absent record key, a Create whose peerAID or peerBID is empty
returns an invalid-configuration error (the candidate-Connection validation
inside the record-write action fails) and writes no edge record: the record
map after the call is the record map before it. -/
theorem C10_create_empty_peer_writes_no_record (s : service) (now : Nat)
    (namespaceA namespaceB peerAID peerBID : String)
    (habsent : storageGet s.storage
        (recordKeyOf namespaceA namespaceB peerAID peerBID)
        = Except.error StorageErr.notFound)
    (hempty : peerAID = "" ∨ peerBID = "") :
    (∃ msg, (service.Create s now namespaceA namespaceB peerAID peerBID).1
        = Except.error (Err.invalidConfig msg)) ∧
    ((service.Create s now namespaceA namespaceB peerAID peerBID).2).storage.records
      = s.storage.records := by
  obtain ⟨msg, hmsg⟩ := New_missing_field_error
    { created := now, id := recordKeyOf namespaceA namespaceB peerAID peerBID,
      peerAID := peerAID, peerBID := peerBID, weight := service.Weight s }
    (by rcases hempty with h | h
        · exact Or.inr (Or.inl h)
        · exact Or.inr (Or.inr h))
  refine ⟨⟨msg, ?_⟩, ?_⟩ <;>
    simp [service.Create, service.Search, habsent, searchWithGet,
          Err.isNotFound, DefaultConfig, service.Weight, hmsg,
          pushToSet, getAllFromSet] <;>
    simp [service.Weight] at hmsg <;>
    simp [hmsg]

/-- Witness for C10 at a concrete input: empty peerAID on the empty
storage. -/
theorem C10_witness :
    (∃ msg, (service.Create ⟨⟨[], []⟩, 1⟩ 5 "a" "b" "" "d").1
        = Except.error (Err.invalidConfig msg)) ∧
    ((service.Create ⟨⟨[], []⟩, 1⟩ 5 "a" "b" "" "d").2).storage.records
      = (⟨⟨[], []⟩, 1⟩ : service).storage.records :=
  C10_create_empty_peer_writes_no_record ⟨⟨[], []⟩, 1⟩ 5 "a" "b" "" "d"
    rfl (Or.inl rfl)

end Anna
